import Mathlib

/-!
Shallow embedding of the Sync/Async Correlation Bridge
(`internal/syncasync/sync_async_bridge.go`) of the firefly repository.

Go maps are modelled as association lists (lookup of an absent key yields
`none`, matching the Go nil-for-missing semantics); Go nil pointers are
`Option.none`; the Go channel created by `make(chan inflightResponse)` is
modelled by a record carrying its capacity (0 for an unbuffered channel).
The event-bus listener registration, the database plugin, the data manager
and the token-transfer-input decoder are oracles passed as parameters;
calls to the database and dispatches of resolver goroutines are recorded
in the result of `eventCallback` so that frame properties (which reads
happened, which resolutions were spawned) are statable.
-/

/-- UUIDs are abstract identifiers; only decidable equality is used. -/
abbrev UUID := Nat

/-- Go `type requestType int` with the four `iota` constants. -/
inductive requestType where
  | messageConfirm
  | messageReply
  | tokenPoolConfirm
  | tokenTransferConfirm
deriving DecidableEq, Repr

/-- The response channel of an inflight request. `make(chan inflightResponse)`
creates an unbuffered Go channel, i.e. capacity 0. -/
structure respChan where
  capacity : Nat
deriving DecidableEq, Repr

/-- Model of `fftypes.Message`: only the header fields the bridge reads
(`Header.ID`, `Header.CID`); both are pointers in Go. -/
structure Message where
  id : Option UUID
  cid : Option UUID
deriving DecidableEq, Repr

/-- Model of `fftypes.TokenPool`: only `ID` (a pointer in Go). -/
structure TokenPool where
  id : Option UUID
deriving DecidableEq, Repr

/-- Model of `fftypes.TokenTransfer`: only `LocalID` (a pointer in Go; nil in the
zero value `var transfer fftypes.TokenTransfer`). -/
structure TokenTransfer where
  localID : Option UUID
deriving DecidableEq, Repr

/-- Model of `fftypes.Operation`: only `ID`. -/
structure Operation where
  id : UUID
deriving DecidableEq, Repr

/-- A data item attached to a message (element of `[]*fftypes.DataRefOrValue`). -/
structure DataItem where
  id : UUID
deriving DecidableEq, Repr

/-- Model of `fftypes.MessageInOut`: a message plus its inlined data. -/
structure MessageInOut where
  message : Message
  inlineData : List DataItem
deriving DecidableEq, Repr

/-- The `data interface\x7b\x7d` field of `inflightResponse`: the concrete
payloads the bridge ever sends. -/
inductive RespPayload where
  | msg (m : Message)
  | msgInOut (m : MessageInOut)
  | pool (p : TokenPool)
  | transfer (t : TokenTransfer)
deriving DecidableEq, Repr

/-- The typed errors a resolver can place in an `inflightResponse`
(`i18n.MsgRejected`, `i18n.MsgTokenPoolRejected`, `i18n.MsgTokenTransferFailed`). -/
inductive RespErr where
  | msgRejected (id : Option UUID)
  | tokenPoolRejected (id : Option UUID)
  | tokenTransferFailed (id : Option UUID)
deriving DecidableEq, Repr

/-- Go `type inflightResponse struct` — `id`, `data`, `err`. -/
structure inflightResponse where
  id : Option UUID
  data : Option RespPayload
  err : Option RespErr
deriving DecidableEq, Repr

/-- Go `type inflightRequest struct`. `startTime` is the `time.Now()` value,
abstracted to a natural number supplied by the caller of `addInFlight`. -/
structure inflightRequest where
  id : UUID
  startTime : Nat
  response : respChan
  reqType : requestType
deriving DecidableEq, Repr

/-- Inner level of `inflightRequestMap`: `map[fftypes.UUID]*inflightRequest`. -/
abbrev NSTable := List (UUID × inflightRequest)

/-- Go map read `m[k]`: nil (`none`) when absent. -/
def lookupId : NSTable → UUID → Option inflightRequest
  | [], _ => none
  | (k, v) :: rest, i => if k = i then some v else lookupId rest i

/-- Go map write `m[k] = v`: insert or overwrite. -/
def insertId : NSTable → UUID → inflightRequest → NSTable
  | [], i, v => [(i, v)]
  | (k, w) :: rest, i, v =>
      if k = i then (i, v) :: rest else (k, w) :: insertId rest i v

/-- Go `delete(m, k)`: idempotent removal. -/
def removeId : NSTable → UUID → NSTable
  | [], _ => []
  | (k, w) :: rest, i =>
      if k = i then removeId rest i else (k, w) :: removeId rest i

/-- Outer level of `inflightRequestMap`: `map[string]map[fftypes.UUID]*inflightRequest`.
A namespace whose row is absent reads as a nil map (`none`), distinct from a
present-but-empty row (`some []`). -/
abbrev InflightMap := List (String × NSTable)

/-- Go map read `sa.inflight[ns]`. -/
def lookupNS : InflightMap → String → Option NSTable
  | [], _ => none
  | (k, v) :: rest, ns => if k = ns then some v else lookupNS rest ns

/-- Go map write `sa.inflight[ns] = t`. -/
def setNS : InflightMap → String → NSTable → InflightMap
  | [], ns, t => [(ns, t)]
  | (k, w) :: rest, ns, t =>
      if k = ns then (ns, t) :: rest else (k, w) :: setNS rest ns t

/-- Go `len` of a possibly-nil Go map: `len(nil) = 0`. -/
def nsLen : Option NSTable → Nat
  | none => 0
  | some t => t.length

/-- Error returned by `sysevents.AddSystemEventListener`. -/
abbrev AttachErr := Nat

/-- The mutable state of `syncAsyncBridge` relevant to the claims: the
`inflight` table, plus an instrumentation log of every namespace for which
`AddSystemEventListener` was invoked (in invocation order). -/
structure BridgeState where
  inflight : InflightMap
  listenerCalls : List String
deriving DecidableEq, Repr

/-- The state produced by `NewSyncAsyncBridge`: an empty table, no
listeners attached. -/
def initialState : BridgeState := { inflight := [], listenerCalls := [] }

/-- Embeds `addInFlight(ns, id, reqType)`. `attach` is the
`sysevents.AddSystemEventListener` oracle (`none` = success); `now` stands
for `time.Now()`. The state is returned on every path (the shared table
persists across the Go call); the listener-call log records the attach
attempt whether or not it succeeds. The response channel is created by
`make(chan inflightResponse)`, i.e. unbuffered (capacity 0). -/
def addInFlight (attach : String → Option AttachErr) (st : BridgeState)
    (ns : String) (id : UUID) (now : Nat) (reqType : requestType) :
    Except AttachErr inflightRequest × BridgeState :=
  let inflight : inflightRequest :=
    { id := id, startTime := now, response := { capacity := 0 }, reqType := reqType }
  match lookupNS st.inflight ns with
  | none =>
      let st1 : BridgeState := { st with listenerCalls := st.listenerCalls ++ [ns] }
      match attach ns with
      | some e => (Except.error e, st1)
      | none =>
          let inflightNS : NSTable := insertId [] id inflight
          (Except.ok inflight, { st1 with inflight := setNS st1.inflight ns inflightNS })
  | some inflightNS =>
      (Except.ok inflight,
        { st with inflight := setNS st.inflight ns (insertId inflightNS id inflight) })

/-- Embeds `getInFlight(ns, reqType, id)`: nil-map and nil-id guarded lookup,
requiring the stored `reqType` to equal the requested one. -/
def getInFlight (st : BridgeState) (ns : String) (reqType : requestType)
    (id : Option UUID) : Option inflightRequest :=
  match lookupNS st.inflight ns, id with
  | some inflightNS, some i =>
      match lookupId inflightNS i with
      | some inflight => if inflight.reqType = reqType then some inflight else none
      | none => none
  | _, _ => none

/-- Embeds `removeInFlight(ns, id)`: idempotent delete; the namespace row is never
removed, only its entry for `id`. -/
def removeInFlight (st : BridgeState) (ns : String) (id : UUID) : BridgeState :=
  match lookupNS st.inflight ns with
  | some inflightNS =>
      { st with inflight := setNS st.inflight ns (removeId inflightNS id) }
  | none => st

/-- The `fftypes.EventType` values the callback switches on. -/
inductive EventType where
  | messageConfirmed
  | messageRejected
  | poolConfirmed
  | poolRejected
  | transferConfirmed
  | transferOpFailed
  | other
deriving DecidableEq, Repr

/-- Model of `fftypes.EventDelivery`: the fields the bridge reads (`Namespace` is
rendered `ns` since `namespace` is reserved in Lean). -/
structure EventDelivery where
  id : UUID
  type : EventType
  ns : String
  reference : UUID
deriving DecidableEq, Repr

/-- Error returned by a database plugin call. -/
abbrev DBErr := Nat

/-- The database plugin operations the bridge consumes, as an oracle. -/
structure DB where
  getMessageByID : UUID → Except DBErr (Option Message)
  getTokenPoolByID : UUID → Except DBErr (Option TokenPool)
  getTokenTransfer : UUID → Except DBErr (Option TokenTransfer)
  getOperationByID : UUID → Except DBErr (Option Operation)

/-- A database read issued by the event callback (instrumentation, so that
the zero-database-reads property of the no-inflight fast path is statable). -/
inductive DBRead where
  | readMessage (id : UUID)
  | readPool (id : UUID)
  | readTransfer (id : UUID)
  | readOperation (id : UUID)
deriving DecidableEq, Repr

/-- A resolver goroutine dispatched by the event callback
(`go sa.resolveReply(...)` etc.), with its arguments. -/
inductive Resolution where
  | reply (inflight : inflightRequest) (msg : Message)
  | confirmed (inflight : inflightRequest) (msg : Message)
  | rejected (inflight : inflightRequest) (msgID : Option UUID)
  | confirmedTokenPool (inflight : inflightRequest) (pool : TokenPool)
  | rejectedTokenPool (inflight : inflightRequest) (poolID : Option UUID)
  | confirmedTokenTransfer (inflight : inflightRequest) (transfer : TokenTransfer)
  | failedTokenTransfer (inflight : inflightRequest) (transferID : Option UUID)
deriving DecidableEq, Repr

/-- Embeds `getMessageFromEvent`: a database error propagates; a missing message is
logged and `(nil, nil)` is returned. -/
def getMessageFromEvent (db : DB) (event : EventDelivery) :
    Except DBErr (Option Message) :=
  db.getMessageByID event.reference

/-- Embeds `getPoolFromEvent`. -/
def getPoolFromEvent (db : DB) (event : EventDelivery) :
    Except DBErr (Option TokenPool) :=
  db.getTokenPoolByID event.reference

/-- Embeds `getTransferFromEvent`. -/
def getTransferFromEvent (db : DB) (event : EventDelivery) :
    Except DBErr (Option TokenTransfer) :=
  db.getTokenTransfer event.reference

/-- Embeds `getOperationFromEvent`. -/
def getOperationFromEvent (db : DB) (event : EventDelivery) :
    Except DBErr (Option Operation) :=
  db.getOperationByID event.reference

/-- Error from decoding token-transfer inputs out of an operation. -/
abbrev DecodeErr := Nat

/-- Modelled from the spec: `txcommon.RetrieveTokenTransferInputs` is not
among the provided sources. Per the matcher rules table of the spec
("Operation → decode transfer inputs → LocalId") it decodes a
`TokenTransfer` from the inputs of an operation, and may fail. The event
callback declares `var transfer fftypes.TokenTransfer` (zero value,
`LocalID` nil) and passes its address; on decode failure only a warning is
logged, so the transfer keeps its zero value (`localID = none`). -/
def decodedTransfer (decode : Operation → Except DecodeErr TokenTransfer)
    (op : Operation) : TokenTransfer :=
  match decode op with
  | Except.ok t => t
  | Except.error _ => { localID := none }

/-- Result of one `eventCallback` invocation: the Go `error` return, the
database reads it issued (in order), and the resolver goroutines it
dispatched (in dispatch order). -/
structure CallbackResult where
  result : Except DBErr Unit
  reads : List DBRead
  dispatched : List Resolution
deriving Repr

/-- Embeds `eventCallback(event)`: fast-path return when the namespace has no
inflights (`len(inflightNS) == 0`, true for both a nil and an empty map),
then a switch on the event type; hydration failures propagate, a missing
entity yields a nil return with no resolution, and each matched inflight
gets a resolver goroutine dispatched. -/
def eventCallback (db : DB) (decode : Operation → Except DecodeErr TokenTransfer)
    (st : BridgeState) (event : EventDelivery) : CallbackResult :=
  let inflightNS := lookupNS st.inflight event.ns
  if nsLen inflightNS = 0 then
    { result := Except.ok (), reads := [], dispatched := [] }
  else
    match event.type with
    | EventType.messageConfirmed =>
        match getMessageFromEvent db event with
        | Except.error e =>
            { result := Except.error e, reads := [DBRead.readMessage event.reference],
              dispatched := [] }
        | Except.ok none =>
            { result := Except.ok (), reads := [DBRead.readMessage event.reference],
              dispatched := [] }
        | Except.ok (some msg) =>
            let d1 : List Resolution :=
              match getInFlight st event.ns requestType.messageReply msg.cid with
              | some inflightReply => [Resolution.reply inflightReply msg]
              | none => []
            let d2 : List Resolution :=
              match getInFlight st event.ns requestType.messageConfirm msg.id with
              | some inflight => [Resolution.confirmed inflight msg]
              | none => []
            { result := Except.ok (), reads := [DBRead.readMessage event.reference],
              dispatched := d1 ++ d2 }
    | EventType.messageRejected =>
        match getMessageFromEvent db event with
        | Except.error e =>
            { result := Except.error e, reads := [DBRead.readMessage event.reference],
              dispatched := [] }
        | Except.ok none =>
            { result := Except.ok (), reads := [DBRead.readMessage event.reference],
              dispatched := [] }
        | Except.ok (some msg) =>
            let d : List Resolution :=
              match getInFlight st event.ns requestType.messageConfirm msg.id with
              | some inflight => [Resolution.rejected inflight msg.id]
              | none => []
            { result := Except.ok (), reads := [DBRead.readMessage event.reference],
              dispatched := d }
    | EventType.poolConfirmed =>
        match getPoolFromEvent db event with
        | Except.error e =>
            { result := Except.error e, reads := [DBRead.readPool event.reference],
              dispatched := [] }
        | Except.ok none =>
            { result := Except.ok (), reads := [DBRead.readPool event.reference],
              dispatched := [] }
        | Except.ok (some pool) =>
            let d : List Resolution :=
              match getInFlight st event.ns requestType.tokenPoolConfirm pool.id with
              | some inflight => [Resolution.confirmedTokenPool inflight pool]
              | none => []
            { result := Except.ok (), reads := [DBRead.readPool event.reference],
              dispatched := d }
    | EventType.poolRejected =>
        match getPoolFromEvent db event with
        | Except.error e =>
            { result := Except.error e, reads := [DBRead.readPool event.reference],
              dispatched := [] }
        | Except.ok none =>
            { result := Except.ok (), reads := [DBRead.readPool event.reference],
              dispatched := [] }
        | Except.ok (some pool) =>
            let d : List Resolution :=
              match getInFlight st event.ns requestType.tokenPoolConfirm pool.id with
              | some inflight => [Resolution.rejectedTokenPool inflight pool.id]
              | none => []
            { result := Except.ok (), reads := [DBRead.readPool event.reference],
              dispatched := d }
    | EventType.transferConfirmed =>
        match getTransferFromEvent db event with
        | Except.error e =>
            { result := Except.error e, reads := [DBRead.readTransfer event.reference],
              dispatched := [] }
        | Except.ok none =>
            { result := Except.ok (), reads := [DBRead.readTransfer event.reference],
              dispatched := [] }
        | Except.ok (some transfer) =>
            let d : List Resolution :=
              match getInFlight st event.ns requestType.tokenTransferConfirm
                  transfer.localID with
              | some inflight => [Resolution.confirmedTokenTransfer inflight transfer]
              | none => []
            { result := Except.ok (), reads := [DBRead.readTransfer event.reference],
              dispatched := d }
    | EventType.transferOpFailed =>
        match getOperationFromEvent db event with
        | Except.error e =>
            { result := Except.error e, reads := [DBRead.readOperation event.reference],
              dispatched := [] }
        | Except.ok none =>
            { result := Except.ok (), reads := [DBRead.readOperation event.reference],
              dispatched := [] }
        | Except.ok (some op) =>
            let transfer := decodedTransfer decode op
            let d : List Resolution :=
              match getInFlight st event.ns requestType.tokenTransferConfirm
                  transfer.localID with
              | some inflight => [Resolution.failedTokenTransfer inflight transfer.localID]
              | none => []
            { result := Except.ok (), reads := [DBRead.readOperation event.reference],
              dispatched := d }
    | EventType.other =>
        { result := Except.ok (), reads := [], dispatched := [] }

/-- Error from `data.GetMessageData`. -/
abbrev DataErr := Nat

/-- Embeds `resolveReply`: build a `MessageInOut`, load the message data via the
data manager; on failure the resolution is dropped (`none` — nothing is
sent, the waiter times out); on success the sent response value. -/
def resolveReply (getMessageData : Message → Except DataErr (List DataItem))
    (inflight : inflightRequest) (msg : Message) : Option inflightResponse :=
  match getMessageData msg with
  | Except.error _ => none
  | Except.ok d =>
      some { id := msg.id,
             data := some (RespPayload.msgInOut { message := msg, inlineData := d }),
             err := none }

/-- Embeds `resolveConfirmed`: an unconditional send of the message on the
response channel. -/
def resolveConfirmed (inflight : inflightRequest) (msg : Message) :
    inflightResponse :=
  { id := msg.id, data := some (RespPayload.msg msg), err := none }

/-- Embeds `resolveRejected`: an unconditional send of a `MsgRejected` error. -/
def resolveRejected (inflight : inflightRequest) (msgID : Option UUID) :
    inflightResponse :=
  { id := none, data := none, err := some (RespErr.msgRejected msgID) }

/-- Embeds `resolveConfirmedTokenPool`. -/
def resolveConfirmedTokenPool (inflight : inflightRequest) (pool : TokenPool) :
    inflightResponse :=
  { id := pool.id, data := some (RespPayload.pool pool), err := none }

/-- Embeds `resolveRejectedTokenPool`. -/
def resolveRejectedTokenPool (inflight : inflightRequest) (poolID : Option UUID) :
    inflightResponse :=
  { id := none, data := none, err := some (RespErr.tokenPoolRejected poolID) }

/-- Embeds `resolveConfirmedTokenTransfer`. -/
def resolveConfirmedTokenTransfer (inflight : inflightRequest)
    (transfer : TokenTransfer) : inflightResponse :=
  { id := transfer.localID, data := some (RespPayload.transfer transfer), err := none }

/-- Embeds `resolveFailedTokenTransfer`. -/
def resolveFailedTokenTransfer (inflight : inflightRequest)
    (transferID : Option UUID) : inflightResponse :=
  { id := none, data := none, err := some (RespErr.tokenTransferFailed transferID) }

/-- Error from the caller-supplied `send` callback. -/
abbrev SendErr := Nat

/-- What the blocking `select` in `sendAndWait` observes: either the
context is cancelled / times out, or a response arrives on the channel. -/
inductive WaitOutcome where
  | cancelled
  | response (reply : inflightResponse)
deriving Repr

/-- The Go `error` values `sendAndWait` can return. -/
inductive SAErr where
  | attach (e : AttachErr)
  | send (e : SendErr)
  | requestTimeout (id : UUID)
  | fromResponse (e : RespErr)
deriving DecidableEq, Repr

/-- Embeds `sendAndWait(ctx, ns, id, reqType, send)`. `sendResult` is the result
of the caller-supplied `send` callback and `outcome` what the final
`select` observes; both are oracles since they depend on the outside
world. The deferred `removeInFlight(ns, inflight.id)` runs on every path
after a successful `addInFlight` — including a panic inside `send`, which
the cancellation path of the oracle does not model separately since the
deferred call is identical. Returns the `(interface\x7b\x7d, error)` pair
and the final bridge state. -/
def sendAndWait (attach : String → Option AttachErr) (st : BridgeState)
    (ns : String) (id : UUID) (now : Nat) (reqType : requestType)
    (sendResult : Option SendErr) (outcome : WaitOutcome) :
    (Option RespPayload × Option SAErr) × BridgeState :=
  match addInFlight attach st ns id now reqType with
  | (Except.error e, st1) => ((none, some (SAErr.attach e)), st1)
  | (Except.ok inflight, st1) =>
      match sendResult with
      | some e => ((none, some (SAErr.send e)), removeInFlight st1 ns inflight.id)
      | none =>
          match outcome with
          | WaitOutcome.cancelled =>
              ((none, some (SAErr.requestTimeout inflight.id)),
               removeInFlight st1 ns inflight.id)
          | WaitOutcome.response reply =>
              ((reply.data, Option.map SAErr.fromResponse reply.err),
               removeInFlight st1 ns inflight.id)


/-! Sequences of registry operations, for the listener-idempotence claim. -/

/-- One registry call: an `addInFlight` or a `removeInFlight`. -/
inductive BridgeOp where
  | add (ns : String) (id : UUID) (now : Nat) (reqType : requestType)
  | remove (ns : String) (id : UUID)
deriving DecidableEq, Repr

/-- State transition of one registry call (the `addInFlight` result value
is discarded; only the state evolution matters here). -/
def applyOp (attach : String → Option AttachErr) (st : BridgeState) :
    BridgeOp → BridgeState
  | BridgeOp.add ns id now rt => (addInFlight attach st ns id now rt).2
  | BridgeOp.remove ns id => removeInFlight st ns id

/-- Runs a sequence of registry calls left to right. -/
def runOps (attach : String → Option AttachErr) (st : BridgeState)
    (ops : List BridgeOp) : BridgeState :=
  ops.foldl (applyOp attach) st

/-- Does this operation register an inflight in namespace `ns`? -/
def isAddIn (ns : String) : BridgeOp → Bool
  | BridgeOp.add ns2 _ _ _ => ns2 = ns
  | BridgeOp.remove _ _ => false

/-- Whether the namespace row exists (1) or not (0); the row is created by
the first successful `addInFlight` and never deleted. -/
def rowFlag (st : BridgeState) (ns : String) : Nat :=
  match lookupNS st.inflight ns with
  | some _ => 1
  | none => 0

/-- Embeds the per-event-type hydration call of the `eventCallback` switch:
which database getter is consulted for the reference of the event, mapped to
whether the entity was found (`true`) or not (`false`); `other` events
consult nothing. -/
def eventLookup (db : DB) (event : EventDelivery) : Except DBErr Bool :=
  match event.type with
  | EventType.messageConfirmed => Except.map Option.isSome (getMessageFromEvent db event)
  | EventType.messageRejected => Except.map Option.isSome (getMessageFromEvent db event)
  | EventType.poolConfirmed => Except.map Option.isSome (getPoolFromEvent db event)
  | EventType.poolRejected => Except.map Option.isSome (getPoolFromEvent db event)
  | EventType.transferConfirmed => Except.map Option.isSome (getTransferFromEvent db event)
  | EventType.transferOpFailed => Except.map Option.isSome (getOperationFromEvent db event)
  | EventType.other => Except.ok false

/-! Concrete fixtures for evaluating the definitions on closed inputs. -/

/-- A listener-attach oracle that always succeeds. -/
def attachOk : String → Option AttachErr := fun _ => none

/-- A listener-attach oracle that always fails with error code 7. -/
def attachFail : String → Option AttachErr := fun _ => some 7

/-- A database in which no entity exists. -/
def dbEmpty : DB :=
  { getMessageByID := fun _ => Except.ok none
    getTokenPoolByID := fun _ => Except.ok none
    getTokenTransfer := fun _ => Except.ok none
    getOperationByID := fun _ => Except.ok none }

/-- A database holding one message with `Header.ID = 1`, `Header.CID = 2`. -/
def dbMsg : DB :=
  { dbEmpty with getMessageByID := fun _ => Except.ok (some { id := some 1, cid := some 2 }) }

/-- A database holding one operation with `ID = 3`. -/
def dbOp : DB :=
  { dbEmpty with getOperationByID := fun _ => Except.ok (some { id := 3 }) }

/-- A token-transfer-inputs decoder that always fails. -/
def decodeFail : Operation → Except DecodeErr TokenTransfer := fun _ => Except.error 0

/-- State after registering inflight 5 (messageConfirm) in namespace "ns1". -/
def stOne : BridgeState :=
  (addInFlight attachOk initialState "ns1" 5 0 requestType.messageConfirm).2

/-- State after registering inflights 1 (messageConfirm) and
2 (messageReply) in namespace "ns1". -/
def stTwo : BridgeState :=
  (addInFlight attachOk
    (addInFlight attachOk initialState "ns1" 1 0 requestType.messageConfirm).2
    "ns1" 2 0 requestType.messageReply).2

/-! Association-list lemmas for the two map levels. -/

theorem lookupId_insert_self (t : NSTable) (i : UUID) (v : inflightRequest) :
    lookupId (insertId t i v) i = some v := by
  induction t with
  | nil => simp [insertId, lookupId]
  | cons hd tl ih =>
      obtain ⟨k, w⟩ := hd
      by_cases hk : k = i
      · simp [insertId, hk, lookupId]
      · simp [insertId, hk, lookupId, ih]

theorem lookupId_remove_self (t : NSTable) (i : UUID) :
    lookupId (removeId t i) i = none := by
  induction t with
  | nil => simp [removeId, lookupId]
  | cons hd tl ih =>
      obtain ⟨k, w⟩ := hd
      by_cases hk : k = i
      · simp [removeId, hk, ih]
      · simp [removeId, hk, lookupId, ih]

theorem lookupId_nil_none (i : UUID) : lookupId [] i = none := rfl

theorem lookupId_some_ne_nil {t : NSTable} {i : UUID} {v : inflightRequest}
    (h : lookupId t i = some v) : t ≠ [] := by
  intro hnil
  subst hnil
  simp [lookupId] at h

theorem lookupNS_set_self (m : InflightMap) (ns : String) (t : NSTable) :
    lookupNS (setNS m ns t) ns = some t := by
  induction m with
  | nil => simp [setNS, lookupNS]
  | cons hd tl ih =>
      obtain ⟨k, w⟩ := hd
      by_cases hk : k = ns
      · simp [setNS, hk, lookupNS]
      · simp [setNS, hk, lookupNS, ih]

theorem lookupNS_set_ne (m : InflightMap) (ns ns2 : String) (t : NSTable)
    (h : ns2 ≠ ns) : lookupNS (setNS m ns t) ns2 = lookupNS m ns2 := by
  induction m with
  | nil =>
      have hkn : ns ≠ ns2 := fun hh => h hh.symm
      simp [setNS, lookupNS, hkn]
  | cons hd tl ih =>
      obtain ⟨k, w⟩ := hd
      by_cases hk : k = ns
      · subst hk
        have hkn : k ≠ ns2 := fun hh => h hh.symm
        simp [setNS, lookupNS, hkn]
      · by_cases hk2 : k = ns2
        · simp [setNS, hk, lookupNS, hk2, h]
        · simp [setNS, hk, lookupNS, hk2, ih]

/-! Basic facts about the registry operations. -/

theorem getInFlight_nil_id (st : BridgeState) (ns : String) (rt : requestType) :
    getInFlight st ns rt none = none := by
  unfold getInFlight
  cases lookupNS st.inflight ns <;> rfl

theorem getInFlight_some_reqType {st : BridgeState} {ns : String}
    {rt : requestType} {oid : Option UUID} {infl : inflightRequest}
    (h : getInFlight st ns rt oid = some infl) : infl.reqType = rt := by
  simp only [getInFlight] at h
  split at h
  · split at h
    · split at h
      · cases h
        assumption
      · cases h
    · cases h
  · cases h

theorem getInFlight_some_lookup {st : BridgeState} {ns : String}
    {rt : requestType} {oid : Option UUID} {infl : inflightRequest}
    (h : getInFlight st ns rt oid = some infl) :
    ∃ tab i, lookupNS st.inflight ns = some tab ∧ oid = some i ∧
      lookupId tab i = some infl := by
  simp only [getInFlight] at h
  split at h
  next tab i heq =>
    refine ⟨tab, i, heq, rfl, ?_⟩
    split at h
    · split at h
      · cases h
        assumption
      · cases h
    · cases h
  next => cases h

theorem getInFlight_some_nsLen {st : BridgeState} {ns : String}
    {rt : requestType} {oid : Option UUID} {infl : inflightRequest}
    (h : getInFlight st ns rt oid = some infl) :
    nsLen (lookupNS st.inflight ns) ≠ 0 := by
  obtain ⟨tab, i, htab, _, hid⟩ := getInFlight_some_lookup h
  have hne : tab ≠ [] := lookupId_some_ne_nil hid
  simp [nsLen, htab, hne]

theorem getInFlight_kind_mismatch {st : BridgeState} {ns : String}
    {tab : NSTable} {i : UUID} {infl : inflightRequest} {rt : requestType}
    (htab : lookupNS st.inflight ns = some tab)
    (hid : lookupId tab i = some infl) (hne : infl.reqType ≠ rt) :
    getInFlight st ns rt (some i) = none := by
  simp [getInFlight, htab, hid, hne]

theorem getInFlight_after_remove (st : BridgeState) (ns : String)
    (rt : requestType) (i : UUID) :
    getInFlight (removeInFlight st ns i) ns rt (some i) = none := by
  unfold removeInFlight
  cases hns : lookupNS st.inflight ns with
  | none => simp [getInFlight, hns]
  | some tab => simp [getInFlight, lookupNS_set_self, lookupId_remove_self]

theorem addInFlight_ok_shape {attach : String → Option AttachErr}
    {st : BridgeState} {ns : String} {id : UUID} {now : Nat}
    {rt : requestType} {infl : inflightRequest} {st2 : BridgeState}
    (h : addInFlight attach st ns id now rt = (Except.ok infl, st2)) :
    infl = { id := id, startTime := now, response := { capacity := 0 },
             reqType := rt } := by
  simp only [addInFlight] at h
  split at h
  · split at h
    · simp at h
    · simp at h
      exact h.1.symm
  · simp at h
    exact h.1.symm

theorem addInFlight_existing_row {st : BridgeState} {ns : String}
    {tab : NSTable} (attach : String → Option AttachErr) (id : UUID)
    (now : Nat) (rt : requestType)
    (h : lookupNS st.inflight ns = some tab) :
    addInFlight attach st ns id now rt =
      (Except.ok { id := id, startTime := now, response := { capacity := 0 },
                   reqType := rt },
       { st with inflight := setNS st.inflight ns (insertId tab id
           { id := id, startTime := now, response := { capacity := 0 },
             reqType := rt }) }) := by
  simp [addInFlight, h]

/-! Lemmas about operation sequences and the listener-call log. -/

theorem listenerInv_step (attach : String → Option AttachErr) (ns : String)
    (hns : attach ns = none) (st : BridgeState) (op : BridgeOp)
    (h : st.listenerCalls.count ns = rowFlag st ns) :
    (applyOp attach st op).listenerCalls.count ns
      = rowFlag (applyOp attach st op) ns := by
  cases op with
  | add ns2 id now rt =>
      simp only [applyOp, addInFlight]
      cases hrow : lookupNS st.inflight ns2 with
      | some tab =>
          by_cases heq : ns = ns2
          · subst heq
            simp only [rowFlag, lookupNS_set_self]
            rw [h, rowFlag, hrow]
          · simp only [rowFlag, lookupNS_set_ne _ _ _ _ heq]
            rw [h, rowFlag]
      | none =>
          cases hat : attach ns2 with
          | some e =>
              by_cases heq : ns2 = ns
              · subst heq
                rw [hns] at hat
                cases hat
              · simp only [List.count_append, h, rowFlag]
                simp [List.count_singleton', heq]
          | none =>
              by_cases heq : ns2 = ns
              · subst heq
                simp only [rowFlag, lookupNS_set_self, List.count_append]
                rw [h, rowFlag, hrow]
                simp [List.count_singleton']
              · have hne : ns ≠ ns2 := fun hh => heq hh.symm
                simp only [rowFlag, lookupNS_set_ne _ _ _ _ hne, List.count_append]
                rw [h, rowFlag]
                simp [List.count_singleton', heq]
  | remove ns2 id =>
      simp only [applyOp, removeInFlight]
      cases hrow : lookupNS st.inflight ns2 with
      | none => exact h
      | some tab =>
          by_cases heq : ns = ns2
          · subst heq
            simp only [rowFlag, lookupNS_set_self]
            rw [h, rowFlag, hrow]
          · simp only [rowFlag, lookupNS_set_ne _ _ _ _ heq]
            rw [h, rowFlag]

theorem listenerInv_run (attach : String → Option AttachErr) (ns : String)
    (hns : attach ns = none) (ops : List BridgeOp) :
    ∀ st : BridgeState, st.listenerCalls.count ns = rowFlag st ns →
      (runOps attach st ops).listenerCalls.count ns
        = rowFlag (runOps attach st ops) ns := by
  induction ops with
  | nil => intro st h; exact h
  | cons op rest ih =>
      intro st h
      exact ih (applyOp attach st op) (listenerInv_step attach ns hns st op h)

theorem rowFlag_mono_step (attach : String → Option AttachErr) (ns : String)
    (st : BridgeState) (op : BridgeOp) (h : rowFlag st ns = 1) :
    rowFlag (applyOp attach st op) ns = 1 := by
  cases op with
  | add ns2 id now rt =>
      simp only [applyOp, addInFlight]
      cases hrow : lookupNS st.inflight ns2 with
      | some tab =>
          by_cases heq : ns = ns2
          · subst heq
            simp [rowFlag, lookupNS_set_self]
          · simpa [rowFlag, lookupNS_set_ne _ _ _ _ heq] using h
      | none =>
          cases hat : attach ns2 with
          | some e => exact h
          | none =>
              by_cases heq : ns = ns2
              · subst heq
                simp [rowFlag, lookupNS_set_self]
              · simpa [rowFlag, lookupNS_set_ne _ _ _ _ heq] using h
  | remove ns2 id =>
      simp only [applyOp, removeInFlight]
      cases hrow : lookupNS st.inflight ns2 with
      | none => exact h
      | some tab =>
          by_cases heq : ns = ns2
          · subst heq
            simp [rowFlag, lookupNS_set_self]
          · simpa [rowFlag, lookupNS_set_ne _ _ _ _ heq] using h

theorem rowFlag_mono_run (attach : String → Option AttachErr) (ns : String)
    (ops : List BridgeOp) :
    ∀ st : BridgeState, rowFlag st ns = 1 →
      rowFlag (runOps attach st ops) ns = 1 := by
  induction ops with
  | nil => intro st h; exact h
  | cons op rest ih =>
      intro st h
      exact ih (applyOp attach st op) (rowFlag_mono_step attach ns st op h)

theorem rowFlag_after_add (attach : String → Option AttachErr) (ns : String)
    (hns : attach ns = none) (st : BridgeState) (id : UUID) (now : Nat)
    (rt : requestType) :
    rowFlag (applyOp attach st (BridgeOp.add ns id now rt)) ns = 1 := by
  simp only [applyOp, addInFlight]
  cases hrow : lookupNS st.inflight ns with
  | some tab => simp [rowFlag, lookupNS_set_self]
  | none => rw [hns]; simp [rowFlag, lookupNS_set_self]

/-! Claim theorems. -/

/-- C1, counterexample: with inflight 5 (messageConfirm) already registered
in "ns1", a second `addInFlight` for the same id returns `Except.ok` — not
a duplicate-inflight error — and overwrites the existing entry: the
original messageConfirm entry is no longer found. -/
theorem addInFlight_duplicate_cex :
    (addInFlight attachOk stOne "ns1" 5 7 requestType.messageReply).1
      = Except.ok { id := 5, startTime := 7, response := { capacity := 0 },
                    reqType := requestType.messageReply }
    ∧ getInFlight (addInFlight attachOk stOne "ns1" 5 7 requestType.messageReply).2
        "ns1" requestType.messageConfirm (some 5) = none :=
  ⟨rfl, rfl⟩

/-- C1, amended: `addInFlight` performs no duplicate check. When an entry
with the same id is already registered in the namespace, the call succeeds
(returns the freshly built inflight, no error) and overwrites the existing
entry in the table. -/
theorem addInFlight_duplicate_overwrites
    (attach : String → Option AttachErr) (st : BridgeState) (ns : String)
    (id : UUID) (now : Nat) (rt : requestType) (tab : NSTable)
    (old : inflightRequest) (hrow : lookupNS st.inflight ns = some tab)
    (hdup : lookupId tab id = some old) :
    (addInFlight attach st ns id now rt).1
      = Except.ok { id := id, startTime := now, response := { capacity := 0 },
                    reqType := rt }
    ∧ getInFlight (addInFlight attach st ns id now rt).2 ns rt (some id)
      = some { id := id, startTime := now, response := { capacity := 0 },
               reqType := rt } := by
  rw [addInFlight_existing_row attach id now rt hrow]
  refine ⟨rfl, ?_⟩
  simp [getInFlight, lookupNS_set_self, lookupId_insert_self]

/-- C1, witness for the amended theorem at a concrete duplicate. -/
theorem addInFlight_duplicate_overwrites_witness :
    (addInFlight attachOk stOne "ns1" 5 7 requestType.messageReply).1
      = Except.ok { id := 5, startTime := 7, response := { capacity := 0 },
                    reqType := requestType.messageReply }
    ∧ getInFlight (addInFlight attachOk stOne "ns1" 5 7 requestType.messageReply).2
        "ns1" requestType.messageReply (some 5)
      = some { id := 5, startTime := 7, response := { capacity := 0 },
               reqType := requestType.messageReply } :=
  addInFlight_duplicate_overwrites attachOk stOne "ns1" 5 7
    requestType.messageReply
    [(5, { id := 5, startTime := 0, response := { capacity := 0 },
           reqType := requestType.messageConfirm })]
    { id := 5, startTime := 0, response := { capacity := 0 },
      reqType := requestType.messageConfirm } rfl rfl

/-- C2, counterexample: the inflight created by a concrete `addInFlight`
carries a response channel of capacity 0 (`make(chan inflightResponse)` is
unbuffered), refuting the claimed capacity 1. -/
theorem response_capacity_cex :
    Except.map (fun infl => infl.response.capacity)
        (addInFlight attachOk initialState "ns1" 5 0
          requestType.messageConfirm).1
      = Except.ok 0
    ∧ Except.map (fun infl => infl.response.capacity)
        (addInFlight attachOk initialState "ns1" 5 0
          requestType.messageConfirm).1
      ≠ Except.ok 1 :=
  ⟨rfl, fun h => by injection h with h2; exact absurd h2 (by decide)⟩

/-- C2, amended: every inflight successfully created by `addInFlight` has
an unbuffered response channel (capacity 0, not 1); the resolver
functions produce an unconditional value for the channel send, with no
drop-on-full branch (a second send would block, not be dropped). -/
theorem response_chan_unbuffered
    (attach : String → Option AttachErr) (st : BridgeState) (ns : String)
    (id : UUID) (now : Nat) (rt : requestType) (infl : inflightRequest)
    (st2 : BridgeState)
    (h : addInFlight attach st ns id now rt = (Except.ok infl, st2)) :
    infl.response.capacity = 0 := by
  rw [addInFlight_ok_shape h]

/-- C2, witness for the amended theorem at a concrete registration. -/
theorem response_chan_unbuffered_witness :
    ({ id := 5, startTime := 0, response := { capacity := 0 },
       reqType := requestType.messageConfirm } :
      inflightRequest).response.capacity = 0 :=
  response_chan_unbuffered attachOk initialState "ns1" 5 0
    requestType.messageConfirm _ stOne rfl

/-- C6: `getInFlight` discriminates by kind. A successful lookup only ever
returns an inflight whose stored kind equals the requested kind, and a
lookup for a kind different from the stored one returns none. -/
theorem getInFlight_kind_discrimination :
    (∀ (st : BridgeState) (ns : String) (rt : requestType) (oid : Option UUID)
        (infl : inflightRequest),
        getInFlight st ns rt oid = some infl → infl.reqType = rt)
    ∧ (∀ (st : BridgeState) (ns : String) (tab : NSTable) (i : UUID)
        (infl : inflightRequest) (rt : requestType),
        lookupNS st.inflight ns = some tab → lookupId tab i = some infl →
        infl.reqType ≠ rt → getInFlight st ns rt (some i) = none) :=
  ⟨fun _ _ _ _ _ h => getInFlight_some_reqType h,
   fun _ _ _ _ _ _ h1 h2 h3 => getInFlight_kind_mismatch h1 h2 h3⟩

/-- C6, witness: in a state holding inflight 5 with kind messageConfirm, a
messageConfirm lookup returns an entry of that kind and a messageReply
lookup for the same id returns none. -/
theorem getInFlight_kind_discrimination_witness :
    ({ id := 5, startTime := 0, response := { capacity := 0 },
       reqType := requestType.messageConfirm } :
        inflightRequest).reqType = requestType.messageConfirm
    ∧ getInFlight stOne "ns1" requestType.messageReply (some 5) = none :=
  ⟨getInFlight_kind_discrimination.1 stOne "ns1" requestType.messageConfirm
      (some 5) _ rfl,
   getInFlight_kind_discrimination.2 stOne "ns1"
      [(5, { id := 5, startTime := 0, response := { capacity := 0 },
             reqType := requestType.messageConfirm })] 5 _
      requestType.messageReply rfl rfl (by decide)⟩

/-- C7: when the namespace row does not exist and the listener attach
fails, `addInFlight` returns the attach error and leaves the inflight
table unchanged — no namespace row is created and no inflight inserted. -/
theorem attach_failure_no_insert
    (attach : String → Option AttachErr) (st : BridgeState) (ns : String)
    (id : UUID) (now : Nat) (rt : requestType) (e : AttachErr)
    (hrow : lookupNS st.inflight ns = none) (hat : attach ns = some e) :
    (addInFlight attach st ns id now rt).1 = Except.error e
    ∧ ((addInFlight attach st ns id now rt).2).inflight = st.inflight := by
  simp [addInFlight, hrow, hat]

/-- C7, witness at a concrete failing attach on the fresh bridge. -/
theorem attach_failure_no_insert_witness :
    (addInFlight attachFail initialState "ns1" 5 0
        requestType.messageConfirm).1 = Except.error 7
    ∧ ((addInFlight attachFail initialState "ns1" 5 0
        requestType.messageConfirm).2).inflight = initialState.inflight :=
  attach_failure_no_insert attachFail initialState "ns1" 5 0
    requestType.messageConfirm 7 rfl rfl

/-- C9: when the namespace has no inflights (absent or empty row), the
event callback returns nil having performed zero database reads and
dispatched no resolutions. -/
theorem no_inflight_fast_path
    (db : DB) (decode : Operation → Except DecodeErr TokenTransfer)
    (st : BridgeState) (event : EventDelivery)
    (hlen : nsLen (lookupNS st.inflight event.ns) = 0) :
    eventCallback db decode st event
      = { result := Except.ok (), reads := [], dispatched := [] } := by
  simp [eventCallback, hlen]

/-- C9, witness: a MessageConfirmed event for an empty bridge. -/
theorem no_inflight_fast_path_witness :
    eventCallback dbMsg decodeFail initialState
        { id := 100, type := EventType.messageConfirmed, ns := "ns1",
          reference := 9 }
      = { result := Except.ok (), reads := [], dispatched := [] } :=
  no_inflight_fast_path dbMsg decodeFail initialState
    { id := 100, type := EventType.messageConfirmed, ns := "ns1",
      reference := 9 } rfl

/-- C3: a MessageConfirmed event whose hydrated message has both an id with
a registered messageConfirm inflight and a correlation id with a
registered messageReply inflight dispatches resolutions for both — the
reply resolution and the confirmation resolution, independently — and the
callback returns nil. -/
theorem messageConfirmed_dual_resolution
    (db : DB) (decode : Operation → Except DecodeErr TokenTransfer)
    (st : BridgeState) (event : EventDelivery) (msg : Message)
    (inflA inflB : inflightRequest)
    (htype : event.type = EventType.messageConfirmed)
    (hdb : db.getMessageByID event.reference = Except.ok (some msg))
    (hreply : getInFlight st event.ns requestType.messageReply msg.cid
      = some inflB)
    (hconf : getInFlight st event.ns requestType.messageConfirm msg.id
      = some inflA) :
    (eventCallback db decode st event).dispatched
      = [Resolution.reply inflB msg, Resolution.confirmed inflA msg]
    ∧ (eventCallback db decode st event).result = Except.ok () := by
  have hlen := getInFlight_some_nsLen hconf
  unfold eventCallback
  rw [if_neg hlen, htype]
  simp [getMessageFromEvent, hdb, hreply, hconf]

/-- C3, witness: a concrete bridge with messageConfirm inflight 1 and
messageReply inflight 2, and a message with id 1 and correlation id 2. -/
theorem messageConfirmed_dual_resolution_witness :
    (eventCallback dbMsg decodeFail stTwo
        { id := 100, type := EventType.messageConfirmed, ns := "ns1",
          reference := 9 }).dispatched
      = [Resolution.reply
           { id := 2, startTime := 0, response := { capacity := 0 },
             reqType := requestType.messageReply }
           { id := some 1, cid := some 2 },
         Resolution.confirmed
           { id := 1, startTime := 0, response := { capacity := 0 },
             reqType := requestType.messageConfirm }
           { id := some 1, cid := some 2 }]
    ∧ (eventCallback dbMsg decodeFail stTwo
        { id := 100, type := EventType.messageConfirmed, ns := "ns1",
          reference := 9 }).result = Except.ok () :=
  messageConfirmed_dual_resolution dbMsg decodeFail stTwo
    { id := 100, type := EventType.messageConfirmed, ns := "ns1",
      reference := 9 }
    { id := some 1, cid := some 2 }
    { id := 1, startTime := 0, response := { capacity := 0 },
      reqType := requestType.messageConfirm }
    { id := 2, startTime := 0, response := { capacity := 0 },
      reqType := requestType.messageReply }
    rfl rfl rfl rfl

/-- C4: after `sendAndWait` returns — whatever the exit path: send-callback
error, cancellation/timeout, or a delivered response (success or error
payload) — the inflight registered for `id` has been removed, so a
subsequent `getInFlight` for that id returns none for every kind. The
attach-failure path registers nothing, so the claim is conditioned on a
successful registration. -/
theorem sendAndWait_cleanup
    (attach : String → Option AttachErr) (st : BridgeState) (ns : String)
    (id : UUID) (now : Nat) (rt : requestType) (sendResult : Option SendErr)
    (outcome : WaitOutcome) (rt2 : requestType) (infl : inflightRequest)
    (st1 : BridgeState)
    (hadd : addInFlight attach st ns id now rt = (Except.ok infl, st1)) :
    getInFlight (sendAndWait attach st ns id now rt sendResult outcome).2
      ns rt2 (some id) = none := by
  have hid : infl.id = id := by rw [addInFlight_ok_shape hadd]
  unfold sendAndWait
  rw [hadd]
  cases sendResult with
  | some e => simpa [hid] using getInFlight_after_remove st1 ns rt2 id
  | none =>
      cases outcome with
      | cancelled => simpa [hid] using getInFlight_after_remove st1 ns rt2 id
      | response reply =>
          simpa [hid] using getInFlight_after_remove st1 ns rt2 id

/-- C4, witness: a concrete timed-out wait leaves no inflight behind. -/
theorem sendAndWait_cleanup_witness :
    getInFlight (sendAndWait attachOk initialState "ns1" 5 0
        requestType.messageConfirm none WaitOutcome.cancelled).2
      "ns1" requestType.messageConfirm (some 5) = none :=
  sendAndWait_cleanup attachOk initialState "ns1" 5 0
    requestType.messageConfirm none WaitOutcome.cancelled
    requestType.messageConfirm
    { id := 5, startTime := 0, response := { capacity := 0 },
      reqType := requestType.messageConfirm }
    stOne rfl

/-- C5: across any sequence of registry operations starting from the fresh
bridge, if at least one of them registers an inflight in namespace `ns`
and the listener attach for `ns` succeeds, then the event-bus listener
for `ns` is attached exactly once over the whole sequence. -/
theorem listener_attached_once
    (attach : String → Option AttachErr) (ns : String) (ops : List BridgeOp)
    (hns : attach ns = none) (hin : ops.any (isAddIn ns) = true) :
    (runOps attach initialState ops).listenerCalls.count ns = 1 := by
  have hinv := listenerInv_run attach ns hns ops initialState
    (by simp [initialState, rowFlag, lookupNS])
  rw [hinv]
  obtain ⟨op, hmem, hop⟩ := List.any_eq_true.mp hin
  obtain ⟨l1, l2, rfl⟩ := List.append_of_mem hmem
  have hsplit : runOps attach initialState (l1 ++ op :: l2)
      = runOps attach (applyOp attach (runOps attach initialState l1) op) l2 := by
    simp [runOps, List.foldl_append]
  rw [hsplit]
  apply rowFlag_mono_run
  cases op with
  | add ns2 id now rt =>
      have hns2 : ns2 = ns := by simpa [isAddIn] using hop
      subst hns2
      exact rowFlag_after_add attach ns2 hns _ id now rt
  | remove ns2 id => simp [isAddIn] at hop

/-- C5, witness: two adds in "ns1" interleaved with a remove attach the
listener exactly once. -/
theorem listener_attached_once_witness :
    (runOps attachOk initialState
        [BridgeOp.add "ns1" 1 0 requestType.messageConfirm,
         BridgeOp.remove "ns1" 1,
         BridgeOp.add "ns1" 2 0 requestType.messageConfirm]).listenerCalls.count
        "ns1" = 1 :=
  listener_attached_once attachOk "ns1"
    [BridgeOp.add "ns1" 1 0 requestType.messageConfirm,
     BridgeOp.remove "ns1" 1,
     BridgeOp.add "ns1" 2 0 requestType.messageConfirm] rfl rfl

/-- C10: `getInFlight` with a nil id returns none in every state, and a
TransferOpFailed event where the token-transfer inputs of the operation fail to
decode (leaving the zero-value transfer with nil LocalID) dispatches no
resolution and returns nil. -/
theorem nil_id_resolves_nothing :
    (∀ (st : BridgeState) (ns : String) (rt : requestType),
        getInFlight st ns rt none = none)
    ∧ (∀ (db : DB) (decode : Operation → Except DecodeErr TokenTransfer)
        (st : BridgeState) (event : EventDelivery) (op : Operation)
        (e : DecodeErr),
        event.type = EventType.transferOpFailed →
        db.getOperationByID event.reference = Except.ok (some op) →
        decode op = Except.error e →
        (eventCallback db decode st event).result = Except.ok ()
        ∧ (eventCallback db decode st event).dispatched = []) := by
  refine ⟨getInFlight_nil_id, ?_⟩
  intro db decode st event op e htype hop hdec
  unfold eventCallback
  by_cases hlen : nsLen (lookupNS st.inflight event.ns) = 0
  · rw [if_pos hlen]
    exact ⟨rfl, rfl⟩
  · rw [if_neg hlen, htype]
    simp [getOperationFromEvent, hop, decodedTransfer, hdec, getInFlight_nil_id]

/-- C10, witness: a concrete TransferOpFailed event over a non-empty
namespace with a failing decoder resolves nothing, and a nil-id lookup
returns none. -/
theorem nil_id_resolves_nothing_witness :
    getInFlight stOne "ns1" requestType.tokenTransferConfirm none = none
    ∧ ((eventCallback dbOp decodeFail stOne
          { id := 100, type := EventType.transferOpFailed, ns := "ns1",
            reference := 9 }).result = Except.ok ()
       ∧ (eventCallback dbOp decodeFail stOne
          { id := 100, type := EventType.transferOpFailed, ns := "ns1",
            reference := 9 }).dispatched = []) :=
  ⟨nil_id_resolves_nothing.1 stOne "ns1" requestType.tokenTransferConfirm,
   nil_id_resolves_nothing.2 dbOp decodeFail stOne
     { id := 100, type := EventType.transferOpFailed, ns := "ns1",
       reference := 9 } { id := 3 } 0 rfl rfl rfl⟩

theorem exceptMap_isSome_error {α : Type} {x : Except DBErr (Option α)}
    {e : DBErr} (h : Except.map Option.isSome x = Except.error e) :
    x = Except.error e := by
  cases x with
  | error e2 => simpa [Except.map] using h
  | ok o => simp [Except.map] at h

theorem exceptMap_isSome_ok_false {α : Type} {x : Except DBErr (Option α)}
    (h : Except.map Option.isSome x = Except.ok false) :
    x = Except.ok none := by
  cases x with
  | error e2 => simp [Except.map] at h
  | ok o => cases o <;> simp [Except.map] at h ⊢

/-- C8: for an event delivered to a namespace that has inflights, if the
database lookup of the referenced entity fails, the callback returns that
error (and resolves nothing); if the lookup finds no entity, the callback
returns nil and resolves nothing. -/
theorem hydration_error_propagates_not_found_dropped
    (db : DB) (decode : Operation → Except DecodeErr TokenTransfer)
    (st : BridgeState) (event : EventDelivery)
    (hlen : nsLen (lookupNS st.inflight event.ns) ≠ 0) :
    (∀ e : DBErr, eventLookup db event = Except.error e →
        (eventCallback db decode st event).result = Except.error e
        ∧ (eventCallback db decode st event).dispatched = [])
    ∧ (eventLookup db event = Except.ok false →
        (eventCallback db decode st event).result = Except.ok ()
        ∧ (eventCallback db decode st event).dispatched = []) := by
  constructor
  · intro e he
    cases htype : event.type <;> simp only [eventLookup, htype] at he
    case messageConfirmed =>
      have hg := exceptMap_isSome_error he
      constructor <;> simp [eventCallback, htype, hg, hlen]
    case messageRejected =>
      have hg := exceptMap_isSome_error he
      constructor <;> simp [eventCallback, htype, hg, hlen]
    case poolConfirmed =>
      have hg := exceptMap_isSome_error he
      constructor <;> simp [eventCallback, htype, hg, hlen]
    case poolRejected =>
      have hg := exceptMap_isSome_error he
      constructor <;> simp [eventCallback, htype, hg, hlen]
    case transferConfirmed =>
      have hg := exceptMap_isSome_error he
      constructor <;> simp [eventCallback, htype, hg, hlen]
    case transferOpFailed =>
      have hg := exceptMap_isSome_error he
      constructor <;> simp [eventCallback, htype, hg, hlen]
    case other => simp at he
  · intro he
    cases htype : event.type <;> simp only [eventLookup, htype] at he
    case messageConfirmed =>
      have hg := exceptMap_isSome_ok_false he
      constructor <;> simp [eventCallback, htype, hg, hlen]
    case messageRejected =>
      have hg := exceptMap_isSome_ok_false he
      constructor <;> simp [eventCallback, htype, hg, hlen]
    case poolConfirmed =>
      have hg := exceptMap_isSome_ok_false he
      constructor <;> simp [eventCallback, htype, hg, hlen]
    case poolRejected =>
      have hg := exceptMap_isSome_ok_false he
      constructor <;> simp [eventCallback, htype, hg, hlen]
    case transferConfirmed =>
      have hg := exceptMap_isSome_ok_false he
      constructor <;> simp [eventCallback, htype, hg, hlen]
    case transferOpFailed =>
      have hg := exceptMap_isSome_ok_false he
      constructor <;> simp [eventCallback, htype, hg, hlen]
    case other => constructor <;> simp [eventCallback, htype, hlen]

/-- C8, witness: a MessageConfirmed event with an inflight present and an
empty database — entity not found — returns nil with no resolution. -/
theorem hydration_error_propagates_not_found_dropped_witness :
    (eventCallback dbEmpty decodeFail stOne
        { id := 100, type := EventType.messageConfirmed, ns := "ns1",
          reference := 9 }).result = Except.ok ()
    ∧ (eventCallback dbEmpty decodeFail stOne
        { id := 100, type := EventType.messageConfirmed, ns := "ns1",
          reference := 9 }).dispatched = [] :=
  (hydration_error_propagates_not_found_dropped dbEmpty decodeFail stOne
    { id := 100, type := EventType.messageConfirmed, ns := "ns1",
      reference := 9 } (by decide)).2 rfl
